import Mathlib

/-!
Verification of the Scene2Storyboard backend (scene segmentation, session
store, enrichment orchestrator, transcript mapper) against its design
specification.  The Python sources under `backend/` are shallowly embedded:
pure functions become Lean functions over `List Char` / `String` / `ℚ`,
filesystem state is threaded explicitly (`String → Option Json` for JSON
documents, `String → Bool` for frame-image existence), and code that may
raise is modelled with `Except String`.
-/

/-! ### Path handling (`os.path`)

`os.path.join(a, b)` for a non-absolute `b` and `a` without a trailing
separator is `a ++ "/" ++ b`; that is the only usage pattern in the sources.
-/

def joinPath (a b : String) : String := a ++ "/" ++ b

/-- `os.path.basename`: the part of the path after the last `/`. -/
def basenameChars (p : List Char) : List Char :=
  (p.reverse.takeWhile (fun c => !(c = '/'))).reverse

/-- `os.path.splitext(b)[0]` for a basename `b`: everything before the last
dot, except that a dot in position 0 (hidden files) does not start an
extension. -/
def stemChars (b : List Char) : List Char :=
  let r := b.reverse
  if r.any (fun c => c = '.') then
    let beforeDot := ((r.dropWhile (fun c => !(c = '.'))).drop 1).reverse
    if beforeDot = [] then b else beforeDot
  else b

/-- `os.path.splitext(os.path.basename(p))[0]`, used by
`SceneDetector.process_video` as the fallback video name. -/
def stemOfBasename (p : String) : String :=
  String.mk (stemChars (basenameChars p.data))

/-! ### Python string primitives used by the sources -/

/-- Python whitespace test (`str.strip`, regex `\s`) restricted to the ASCII
whitespace characters that can occur in the embedded data. -/
def pyWs (c : Char) : Bool := c.isWhitespace

/-- `str.strip()`: drop leading and trailing whitespace. -/
def pyStripChars (l : List Char) : List Char :=
  ((l.dropWhile pyWs).reverse.dropWhile pyWs).reverse

def pyStrip (s : String) : String := String.mk (pyStripChars s.data)

/-- `str.rstrip()`: drop trailing whitespace. -/
def pyRstripChars (l : List Char) : List Char :=
  (l.reverse.dropWhile pyWs).reverse

/-- `str.replace(old, new)` over character lists: left-to-right,
non-overlapping replacement of every occurrence.  Each step consumes at
least one character, so a fuel of the input's length makes the recursion
structural (the fuel-exhausted arm is unreachable); all patterns appearing
in the sources are non-empty, and for an empty pattern this model copies
the input unchanged. -/
def replaceCharsAux (pat rep : List Char) : Nat → List Char → List Char
  | _, [] => []
  | 0, l => l
  | fuel + 1, c :: rest =>
    if pat ≠ [] ∧ pat.isPrefixOf (c :: rest) then
      rep ++ replaceCharsAux pat rep fuel ((c :: rest).drop pat.length)
    else
      c :: replaceCharsAux pat rep fuel rest

def replaceChars (pat rep l : List Char) : List Char :=
  replaceCharsAux pat rep l.length l

def pyReplace (s pat rep : String) : String :=
  String.mk (replaceChars pat.data rep.data s.data)

theorem dropWhile_len_le {α : Type} (p : α → Bool) (l : List α) :
    (l.dropWhile p).length ≤ l.length :=
  (List.dropWhile_sublist p).length_le

/-- `re.sub(r'\s+', ' ', ·)`: collapse every maximal whitespace run into a
single space.  Fuelled like `replaceCharsAux`. -/
def collapseWsAux : Nat → List Char → List Char
  | _, [] => []
  | 0, l => l
  | fuel + 1, c :: rest =>
    if pyWs c then ' ' :: collapseWsAux fuel (rest.dropWhile pyWs)
    else c :: collapseWsAux fuel rest

def collapseWsChars (l : List Char) : List Char := collapseWsAux l.length l

def collapseWs (s : String) : String := String.mk (collapseWsChars s.data)

/-- One attempt to match the regex `\s*"\s*"` at the start of the list;
returns the rest of the input after the match.  The regex is deterministic
here because `\s*` can only match the maximal whitespace run before a
double-quote character. -/
def matchEmptyQuotes (l : List Char) : Option (List Char) :=
  match l.dropWhile pyWs with
  | [] => none
  | c :: l2 =>
    if c = '"' then
      match l2.dropWhile pyWs with
      | [] => none
      | d :: l4 => if d = '"' then some l4 else none
    else none

theorem matchEmptyQuotes_length {l r : List Char} (h : matchEmptyQuotes l = some r) :
    r.length < l.length := by
  unfold matchEmptyQuotes at h
  have h1 := dropWhile_len_le pyWs l
  cases h2 : l.dropWhile pyWs with
  | nil => rw [h2] at h; simp at h
  | cons c l2 =>
    rw [h2] at h
    dsimp only at h
    rw [h2] at h1
    have h3 := dropWhile_len_le pyWs l2
    by_cases hc : c = '"'
    · cases h4 : l2.dropWhile pyWs with
      | nil => rw [h4] at h; simp [hc] at h
      | cons d l4 =>
        rw [h4] at h
        rw [h4] at h3
        by_cases hd : d = '"'
        · simp only [hc, if_true, hd, Option.some.injEq] at h
          subst h
          simp only [List.length_cons] at h1 h3
          omega
        · simp [hc, hd] at h
    · simp [hc] at h

/-- `re.sub(r'\s*"\s*"', '', ·)`: delete every (leftmost, non-overlapping)
occurrence of optional whitespace, quote, optional whitespace, quote.  A
successful match consumes at least two characters
(`matchEmptyQuotes_length`), so fuelling by the input's length again makes
the recursion structural with an unreachable fuel-exhausted arm. -/
def stripEmptyQuotesAux : Nat → List Char → List Char
  | _, [] => []
  | 0, l => l
  | fuel + 1, c :: rest =>
    match matchEmptyQuotes (c :: rest) with
    | some rest2 => stripEmptyQuotesAux fuel rest2
    | none => c :: stripEmptyQuotesAux fuel rest

def stripEmptyQuotesChars (l : List Char) : List Char :=
  stripEmptyQuotesAux l.length l

/-- `str.split(sep)` for a non-empty separator: non-overlapping left-to-right
splitting, keeping empty parts (Python semantics).  Fuelled like
`replaceCharsAux`. -/
def splitOnAux (sep : List Char) : Nat → List Char → List (List Char)
  | _, [] => [[]]
  | 0, l => [l]
  | fuel + 1, c :: rest =>
    if sep ≠ [] ∧ sep.isPrefixOf (c :: rest) then
      [] :: splitOnAux sep fuel ((c :: rest).drop sep.length)
    else
      match splitOnAux sep fuel rest with
      | [] => [[c]]
      | g :: gs => (c :: g) :: gs

def splitOnChars (sep l : List Char) : List (List Char) :=
  splitOnAux sep l.length l

/-- `"{:03d}".format(n)`: decimal digits of `n`, zero-padded to width ≥ 3. -/
def pad3 (n : Nat) : String :=
  if n < 10 then "00" ++ toString n
  else if n < 100 then "0" ++ toString n
  else toString n

/-! ### JSON documents

The metadata record is persisted with `json.dump` and read back with
`json.load`; both are faithful for the values the backend produces, so the
on-disk file is modelled as the JSON document itself.  Python's `json`
distinguishes `int` and `float` numbers, hence the two numeric
constructors (floats are modelled as rationals). -/

inductive Json where
  | null
  | bool (b : Bool)
  | intNum (n : Int)
  | floatNum (q : ℚ)
  | str (s : String)
  | arr (elems : List Json)
  | obj (fields : List (String × Json))

/-- Association-list lookup, first match wins (Python `dict` has unique
keys, so this is exact). -/
def jsonLookup (k : String) : List (String × Json) → Option Json
  | [] => none
  | (k2, v) :: rest => if k = k2 then some v else jsonLookup k rest

def Json.getField (j : Json) (k : String) : Option Json :=
  match j with
  | .obj fields => jsonLookup k fields
  | _ => none

def Json.asStr : Json → Option String
  | .str s => some s
  | _ => none

def Json.asFloat : Json → Option ℚ
  | .floatNum q => some q
  | _ => none

def Json.asNat : Json → Option Nat
  | .intNum n => if 0 ≤ n then some n.toNat else none
  | _ => none

/-! ### The data model (§3 of the spec)

`Scene` and session metadata records as produced by
`SceneDetector._detect_scenes_pyscenedetect` / `process_video` and enriched
by the orchestrator in `main.py`.  Optional fields are absent until the
corresponding stage runs.  Times are seconds, modelled as rationals. -/

structure Scene where
  scene_number : Nat
  start_time : ℚ
  end_time : ℚ
  duration : ℚ
  frame_path : String
  frame_filename : String
  transcript : Option String := none
  caption : Option String := none
  enhanced_caption : Option String := none
deriving DecidableEq, Repr

structure Metadata where
  video_path : String
  video_name : String
  session_path : String
  total_scenes : Nat
  scenes : List Scene
  processing_timestamp : String
  storyboard_path : Option String := none
deriving DecidableEq, Repr

def Scene.toJson (s : Scene) : Json :=
  .obj ([("scene_number", .intNum s.scene_number),
         ("start_time", .floatNum s.start_time),
         ("end_time", .floatNum s.end_time),
         ("duration", .floatNum s.duration),
         ("frame_path", .str s.frame_path),
         ("frame_filename", .str s.frame_filename)]
    ++ (match s.transcript with | some t => [("transcript", Json.str t)] | none => [])
    ++ (match s.caption with | some c => [("caption", Json.str c)] | none => [])
    ++ (match s.enhanced_caption with
        | some e => [("enhanced_caption", Json.str e)] | none => []))

def Scene.fromJson (j : Json) : Option Scene := do
  let n ← (j.getField "scene_number").bind Json.asNat
  let st ← (j.getField "start_time").bind Json.asFloat
  let et ← (j.getField "end_time").bind Json.asFloat
  let du ← (j.getField "duration").bind Json.asFloat
  let fp ← (j.getField "frame_path").bind Json.asStr
  let fn ← (j.getField "frame_filename").bind Json.asStr
  some { scene_number := n, start_time := st, end_time := et, duration := du,
         frame_path := fp, frame_filename := fn,
         transcript := (j.getField "transcript").bind Json.asStr,
         caption := (j.getField "caption").bind Json.asStr,
         enhanced_caption := (j.getField "enhanced_caption").bind Json.asStr }

def Metadata.toJson (m : Metadata) : Json :=
  .obj ([("video_path", .str m.video_path),
         ("video_name", .str m.video_name),
         ("session_path", .str m.session_path),
         ("total_scenes", .intNum m.total_scenes),
         ("scenes", .arr (m.scenes.map Scene.toJson)),
         ("processing_timestamp", .str m.processing_timestamp)]
    ++ (match m.storyboard_path with
        | some p => [("storyboard_path", Json.str p)] | none => []))

def Metadata.fromJson (j : Json) : Option Metadata := do
  let vp ← (j.getField "video_path").bind Json.asStr
  let vn ← (j.getField "video_name").bind Json.asStr
  let sp ← (j.getField "session_path").bind Json.asStr
  let ts ← (j.getField "total_scenes").bind Json.asNat
  let rawScenes ← match j.getField "scenes" with
                  | some (.arr xs) => some xs
                  | _ => none
  let scenes ← rawScenes.mapM Scene.fromJson
  let pt ← (j.getField "processing_timestamp").bind Json.asStr
  some { video_path := vp, video_name := vn, session_path := sp,
         total_scenes := ts, scenes := scenes, processing_timestamp := pt,
         storyboard_path := (j.getField "storyboard_path").bind Json.asStr }

/-! ### Session store (§4.2)

The store holds one JSON document per path.  `save_metadata`
(`scene_detector.py` lines 29–33) opens the fixed filename
`metadata.json` inside the session directory with mode `'w'`, which
truncates: a repeated write fully replaces the previous document. -/

def FSJ := String → Option Json

def save_metadata (metadata : Metadata) (session_path : String) (fs : FSJ) : FSJ :=
  fun p => if p = joinPath session_path "metadata.json"
           then some (Metadata.toJson metadata) else fs p

/-- Reading the record file back (the `json.load` in `get_scene_info`,
interpreted as a metadata record). -/
def read_metadata (fs : FSJ) (session_path : String) : Option Metadata :=
  (fs (joinPath session_path "metadata.json")).bind Metadata.fromJson

/-! ### Session folder creation (`SceneDetector._create_session_folder`)

The timestamp (`datetime.now().strftime("%Y%m%d_%H%M%S")`) and the random
suffix (`os.urandom(4).hex()`) are inputs of the model. -/

/-- The sanitized slug:
`"".join(c for c in video_name if c.isalnum() or c in (' ', '-', '_'))
  .rstrip().replace(' ', '_')[:20]`. -/
def sanitize_name (video_name : String) : String :=
  String.mk
    (((replaceChars [' '] ['_']
        (pyRstripChars
          (video_name.data.filter
            (fun c => c.isAlphanum || c = ' ' || c = '-' || c = '_'))))).take 20)

/-- `session_id = f"{timestamp}_{safe_name}_{os.urandom(4).hex()}"`;
the returned session path is `os.path.join(scenes_dir, session_id)`. -/
def create_session_folder (scenes_dir timestamp video_name randHex : String) : String :=
  joinPath scenes_dir (timestamp ++ "_" ++ sanitize_name video_name ++ "_" ++ randHex)

/-! ### Scene segmentation (`SceneDetector._detect_scenes_pyscenedetect`)

The video decoder and the PySceneDetect content detector are external; the
model captures their observable interface:

* `readable` — whether the `try` block up to and including `save_images`
  runs without raising (an open/decode failure raises, is caught at lines
  142–144, and makes the method return `[]`);
* `fps`, `frame_count` — what `cv2.VideoCapture` reports;
* `detected` — `scene_manager.get_scene_list()` as `(start, end)` seconds.

`save_images` writes the representative frames; which files it actually
left on disk is observed through the existence oracle `ex`
(`os.path.exists`). -/

structure Video where
  readable : Bool
  fps : ℚ
  frame_count : Nat
  detected : List (ℚ × ℚ)

/-- `f"scene_{i+1:03d}.jpg"` for 0-based raw index `i`. -/
def primaryFrameName (i : Nat) : String := "scene_" ++ pad3 (i + 1) ++ ".jpg"

/-- `f"scene_{i+1}.jpg"`, the alternate name format. -/
def altFrameName (i : Nat) : String := "scene_" ++ toString (i + 1) ++ ".jpg"

/-- The loop body for raw scene `i` (lines 111–137): check the primary
name, fall back to the alternate, otherwise skip the scene. -/
def sceneFromRaw (session_path : String) (ex : String → Bool) (i : Nat)
    (se : ℚ × ℚ) : Option Scene :=
  let primary := joinPath session_path (primaryFrameName i)
  if ex primary then
    some { scene_number := i + 1, start_time := se.1, end_time := se.2,
           duration := se.2 - se.1, frame_path := primary,
           frame_filename := primaryFrameName i }
  else
    let alt := joinPath session_path (altFrameName i)
    if ex alt then
      some { scene_number := i + 1, start_time := se.1, end_time := se.2,
             duration := se.2 - se.1, frame_path := alt,
             frame_filename := altFrameName i }
    else none

/-- The raw scene list after the zero-boundary fallback (lines 90–98): an
empty detector result is replaced by the single whole-video range
`(FrameTimecode(0, fps), FrameTimecode(frame_count, fps))`, whose
`get_seconds()` values are `0` and `frame_count / fps`. -/
def rawSceneList (v : Video) : List (ℚ × ℚ) :=
  if v.detected.isEmpty then [((0 : ℚ), (v.frame_count : ℚ) / v.fps)]
  else v.detected

def detect_scenes_pyscenedetect (v : Video) (session_path : String)
    (ex : String → Bool) : List Scene :=
  if v.readable then
    (rawSceneList v).enum.filterMap (fun p => sceneFromRaw session_path ex p.1 p.2)
  else []

/-! ### `SceneDetector.process_video` (lines 177–200)

The session folder is created *before* detection; the metadata record is
assembled with `total_scenes = len(scenes)` and persisted unconditionally.
`iso_ts` models `datetime.now().isoformat()`. -/

def process_video (v : Video) (video_path video_name : String)
    (scenes_dir timestamp randHex iso_ts : String)
    (ex : String → Bool) (fs : FSJ) : Metadata × FSJ :=
  let name := if video_name = "" then stemOfBasename video_path else video_name
  let session_path := create_session_folder scenes_dir timestamp name randHex
  let scenes := detect_scenes_pyscenedetect v session_path ex
  let metadata : Metadata :=
    { video_path := video_path, video_name := name, session_path := session_path,
      total_scenes := scenes.length, scenes := scenes,
      processing_timestamp := iso_ts }
  (metadata, save_metadata metadata session_path fs)

/-! ### OpenCV boundary detector (`SceneDetector.detect_scenes_opencv`)

The loop reads frames `0, 1, …, frame_count-1`; frame `0` is recorded
unconditionally before the loop.  On iteration for frame `i` a previous
histogram exists exactly when `i ≥ 1`, and `i` is appended when
`cv2.compareHist(hist(i-1), hist(i), HISTCMP_CORREL) < threshold`.  The
histogram comparison outcome is abstracted as `cut : Nat → Bool`
(`cut i` = correlation of frames `i-1` and `i` is below the threshold), so
the result is `0` followed by all `i ∈ [1, frame_count)` with `cut i`.
Python integers are `Int`. -/

def detect_scenes_opencv (frame_count : Nat) (cut : Nat → Bool) : List Int :=
  ((0 : Int) :: ((List.range frame_count).filter
      (fun i => decide (0 < i) && cut i)).map Int.ofNat)

/-- `SceneDetector._convert_frames_to_timestamps` (lines 146–175): scene
`i` runs from `frame_indices[i] / fps` to `(frame_indices[i+1] - 1) / fps`,
the last scene to `(total_frames - 1) / fps`. -/
def convert_frames_to_timestamps (fps : ℚ) (total_frames : Int) :
    List Int → List (ℚ × ℚ)
  | [] => []
  | [f] => [((f : ℚ) / fps, ((total_frames - 1 : Int) : ℚ) / fps)]
  | f :: g :: rest =>
    ((f : ℚ) / fps, ((g - 1 : Int) : ℚ) / fps)
      :: convert_frames_to_timestamps fps total_frames (g :: rest)

/-! ### Transcript mapper (`utils/audio_transcriber.py`)

Audio extraction and the Whisper model are external; their observable
output is `result["segments"]`, a list of `(start, end, text)` segments,
which is the model's input.  `search_lyrics` returns `None` on both of its
paths (it only logs the query), so the lyrics-enhancement branch of
`_clean_transcript` is dead code and the embedding fixes `lyrics = None`. -/

/-- The apostrophe character, written numerically. -/
def apoStr : String := String.mk [Char.ofNat 39]

structure TransSegment where
  seg_start : ℚ
  seg_end : ℚ
  text : String
deriving DecidableEq, Repr

/-- `AudioTranscriber.search_lyrics`: prints the query and returns `None`
(also on its exception path). -/
def search_lyrics (_song_title _artist : String) : Option String := none

/-- The `replacements` dict of `AudioTranscriber._clean_transcript`
(lines 110–203), in insertion order — Python dicts iterate in insertion
order, and the replacements are applied in that order. -/
def transcriptReplacements : List (String × String) :=
  [("persun", "person"),
   ("paren" ++ apoStr ++ "ts", "parents"),
   ("couchs", "couches"),
   ("on the business library", "in the business library"),
   ("on the", "in the"),
   ("che ", "cheer "),
   ("psin", "person"),
   ("Amica", "America"),
   ("Clos", "Closer"),
   ("sleepovs", "sleepovers"),
   ("responds", "responders"),
   ("ov ", "over "),
   ("whe ", "where "),
   ("decI" ++ apoStr ++ "ded", "decided"),
   ("concned", "concerned"),
   ("Aft ", "After "),
   ("dinn", "dinner"),
   ("The" ++ apoStr ++ "s", "There" ++ apoStr ++ "s"),
   ("ye ", "yeah "),
   ("theat", "theater"),
   ("h?", "huh?"),
   ("vy ", "very "),
   ("Che" ++ apoStr ++ "st", "Chester"),
   ("kI" ++ apoStr ++ "lled", "killed"),
   ("nev ", "never "),
   ("murd", "murder"),
   ("stI" ++ apoStr ++ "ll", "still"),
   ("Somewhe", "Somewhere"),
   ("attractI" ++ apoStr ++ "ve", "attractive"),
   ("easi", "easier"),
   ("Siously", "Seriously"),
   ("desves", "deserves"),
   ("does the", "look in the"),
   ("does my", "look in my"),
   ("does your", "look in your"),
   ("does her", "look in her"),
   ("does his", "look in his"),
   ("does their", "look in their"),
   ("dont", "don" ++ apoStr ++ "t"),
   ("cant", "can" ++ apoStr ++ "t"),
   ("wont", "won" ++ apoStr ++ "t"),
   ("isnt", "isn" ++ apoStr ++ "t"),
   ("arent", "aren" ++ apoStr ++ "t"),
   ("havent", "haven" ++ apoStr ++ "t"),
   ("hasnt", "hasn" ++ apoStr ++ "t"),
   ("didnt", "didn" ++ apoStr ++ "t"),
   ("wouldnt", "wouldn" ++ apoStr ++ "t"),
   ("couldnt", "couldn" ++ apoStr ++ "t"),
   ("shouldnt", "shouldn" ++ apoStr ++ "t"),
   ("im", "I" ++ apoStr ++ "m"),
   ("ive", "I" ++ apoStr ++ "ve"),
   ("ill", "I" ++ apoStr ++ "ll"),
   ("id", "I" ++ apoStr ++ "d"),
   ("youre", "you" ++ apoStr ++ "re"),
   ("youve", "you" ++ apoStr ++ "ve"),
   ("youll", "you" ++ apoStr ++ "ll"),
   ("youd", "you" ++ apoStr ++ "d"),
   ("hes", "he" ++ apoStr ++ "s"),
   ("shes", "she" ++ apoStr ++ "s"),
   ("its", "it" ++ apoStr ++ "s"),
   ("were", "we" ++ apoStr ++ "re"),
   ("weve", "we" ++ apoStr ++ "ve"),
   ("well", "we" ++ apoStr ++ "ll"),
   ("wed", "we" ++ apoStr ++ "d"),
   ("theyre", "they" ++ apoStr ++ "re"),
   ("theyve", "they" ++ apoStr ++ "ve"),
   ("theyll", "they" ++ apoStr ++ "ll"),
   ("theyd", "they" ++ apoStr ++ "d"),
   ("um", ""),
   ("uh", ""),
   ("ah", ""),
   ("er", ""),
   ("hmm", ""),
   ("Music", ""),
   ("♪", ""),
   ("♫", ""),
   ("[Music]", ""),
   ("[Instrumental]", ""),
   ("[Chorus]", ""),
   ("[Verse]", ""),
   ("[Bridge]", "")]

/-- `str.join` for a separator. -/
def joinWithSep (sep : String) : List String → String
  | [] => ""
  | [s] => s
  | s :: rest => s ++ sep ++ joinWithSep sep rest

/-- One iteration of the sentence-capitalization loop: append the stripped
sentence (capitalizing a lowercase first letter) if it is non-blank. -/
def capSentence (sentence : String) : Option String :=
  if pyStrip sentence = "" then none
  else
    let s := pyStrip sentence
    match s.data with
    | [] => some s
    | c :: rest => if c.isLower then some (String.mk (c.toUpper :: rest)) else some s

/-- `AudioTranscriber._clean_transcript` with `lyrics = None` (the only
reachable case, see `search_lyrics`). -/
def audio_clean_transcript (text : String) : String :=
  let t := collapseWs (pyStrip text)
  let t := transcriptReplacements.foldl (fun acc p => pyReplace acc p.1 p.2) t
  let t := collapseWs (String.mk (stripEmptyQuotesChars t.data))
  let sentences := (splitOnChars ['.', ' '] t.data).map String.mk
  pyStrip (joinWithSep (". ") (sentences.filterMap capSentence))

/-- `AudioTranscriber.get_scene_transcripts` (lines 284–327): for each
scene range, join the texts of all overlapping segments and clean the
result.  `song_info` is irrelevant because `search_lyrics` returns
`None`. -/
def get_scene_transcripts (segments : List TransSegment)
    (scene_timestamps : List (ℚ × ℚ)) : List String :=
  scene_timestamps.map (fun st =>
    let scene_text :=
      (segments.filter
        (fun g => decide (g.seg_start ≤ st.2) && decide (st.1 ≤ g.seg_end))).map
        (fun g => g.text)
    audio_clean_transcript (joinWithSep " " scene_text))

/-! ### Caption enhancer (`utils/caption_enhancer.py`) -/

/-- The `fixes` dict of `CaptionEnhancer._clean_transcript`, in order. -/
def enhancerFixes : List (String × String) :=
  [("persun", "person"),
   ("paren" ++ apoStr ++ "ts", "parents"),
   ("couchs", "couches"),
   ("on the business library", "in the business library"),
   ("on the", "in the")]

/-- `transcript[0].upper() + transcript[1:]` (callers guard non-emptiness;
Python would raise on an empty string). -/
def capFirst (s : String) : String :=
  match s.data with
  | [] => s
  | c :: rest => String.mk (c.toUpper :: rest)

/-- `CaptionEnhancer._clean_transcript` (lines 16–51). -/
def enhancer_clean_transcript (transcript : String) : String :=
  if transcript = "" || pyStrip transcript = "" then ""
  else
    let t := pyStrip transcript
    let t := enhancerFixes.foldl (fun acc p => pyReplace acc p.1 p.2) t
    let t := collapseWs t
    if t = "" then t else capFirst t

/-- `CaptionEnhancer._create_storyboard_caption` (lines 53–83). -/
def create_storyboard_caption (visual_caption transcript : String)
    (scene_number : Nat) : String :=
  let clean_t := enhancer_clean_transcript transcript
  let clean_v := pyStrip visual_caption
  let clean_v := if clean_v = "" then clean_v else capFirst clean_v
  if clean_t ≠ "" ∧ 5 < clean_t.length then clean_t
  else if clean_v ≠ "" then clean_v
  else "Scene " ++ toString scene_number

/-- `CaptionEnhancer.enhance_caption` (lines 85–102): the `try` body is
total in this model, so the fallback branch is unreachable. -/
def enhance_caption (visual_caption transcript : String) (scene_number : Nat) : String :=
  create_storyboard_caption visual_caption transcript scene_number

/-- `CaptionEnhancer.enhance_scene_captions` (lines 104–130): copy each
scene and attach `enhanced_caption`. -/
def enhance_scene_captions (scenes_data : List Scene) : List Scene :=
  scenes_data.map (fun scene =>
    { scene with
      enhanced_caption := some (enhance_caption (scene.caption.getD "")
        (scene.transcript.getD "") scene.scene_number) })

/-! ### Pipeline orchestrator (`main.py`, `process_video_upload`)

The external collaborators are oracles that either return a value or raise
(`Except.error` = a raised exception with its message).  The caption
enhancer and the transcript mapper have concrete in-repo implementations
(`enhance_scene_captions`, `get_scene_transcripts`) which can be plugged
in as stages; the oracle form captures the endpoint's per-stage
`try`/`except` behaviour for arbitrary failures. -/

structure Stages where
  transcribe : String → List (ℚ × ℚ) → Except String (List String)
  captionImage : String → Except String String
  enhance : List Scene → Except String (List Scene)
  render : List Scene → String → Except String String

def basenameStr (p : String) : String := String.mk (basenameChars p.data)

/-- One iteration of the `for scene, transcript in zip(...)` loop (lines
98–104): attach the transcript, then caption the frame, substituting the
error-marker string if captioning raises. -/
def attachTranscriptAndCaption (cap : String → Except String String)
    (p : Scene × String) : Scene :=
  let s := { p.1 with transcript := some p.2 }
  match cap s.frame_path with
  | .ok c => { s with caption := some c }
  | .error e => { s with caption := some ("[Captioning failed: " ++ e ++ "]") }

/-- `process_video_upload` (lines 64–135) from the call to
`scene_detector.process_video` onwards.  The `zip` only enriches the
common prefix of scenes and transcripts; scenes beyond it stay in the list
unchanged.  The transcript call (line 95) is *not* wrapped in a per-stage
`try`, so its exception propagates to the endpoint handler; caption
enhancement and storyboard rendering are each wrapped and skipped on
failure.  `shutil.move` of the video file does not touch the JSON store. -/
def process_video_upload (st : Stages) (v : Video)
    (temp_video_path video_name : String)
    (scenes_dir timestamp randHex iso_ts : String)
    (ex : String → Bool) (fs : FSJ) : Except String (Metadata × FSJ) :=
  let r := process_video v temp_video_path video_name scenes_dir timestamp
            randHex iso_ts ex fs
  let md0 := r.1
  let fs1 := r.2
  let session_path := md0.session_path
  let final_video_path := joinPath session_path (basenameStr temp_video_path)
  let md1 := { md0 with video_path := final_video_path }
  let scene_timestamps := md1.scenes.map (fun s => (s.start_time, s.end_time))
  match st.transcribe final_video_path scene_timestamps with
  | .error e => .error e
  | .ok scene_transcripts =>
    let scenes2 :=
      ((md1.scenes.zip scene_transcripts).map
        (attachTranscriptAndCaption st.captionImage))
      ++ md1.scenes.drop scene_transcripts.length
    let md2 := { md1 with scenes := scenes2 }
    let md3 := match st.enhance md2.scenes with
               | .ok enhanced_scenes => { md2 with scenes := enhanced_scenes }
               | .error _ => md2
    let md4 := match st.render md3.scenes (joinPath session_path "storyboard.jpg") with
               | .ok p => { md3 with storyboard_path := some p }
               | .error _ => md3
    .ok (md4, save_metadata md4 session_path fs1)

/-! ### Session listing (`main.py`, `list_sessions`, lines 301–332)

A session directory is observed through: its name, its `metadata.json`
file (absent, valid JSON, or unparseable), and whether `storyboard.jpg`
exists.  `json.load` on a malformed file raises; the endpoint has no
per-directory `try`, so that exception aborts the whole listing (it is
re-raised as an HTTP 500).  `metadata.get(...)` requires the parsed value
to be a `dict` and otherwise raises `AttributeError`. -/

inductive RecordFile where
  | validJson (j : Json)
  | malformed

structure SessionDir where
  name : String
  metadataFile : Option RecordFile
  hasStoryboard : Bool

structure SessionSummary where
  session_id : String
  video_name : Json
  total_scenes : Json
  processing_timestamp : Json
  session_path : String
  has_storyboard : Bool

/-- `metadata.get(k, default)`. -/
def dictGet (j : Json) (k : String) (dflt : Json) : Except String Json :=
  match j with
  | .obj fields => .ok ((jsonLookup k fields).getD dflt)
  | _ => .error "AttributeError"

def summarizeDir (scenes_dir : String) (d : SessionDir) (j : Json) :
    Except String SessionSummary := do
  let vn ← dictGet j "video_name" (.str "Unknown")
  let ts ← dictGet j "total_scenes" (.intNum 0)
  let pt ← dictGet j "processing_timestamp" (.str "")
  .ok { session_id := d.name, video_name := vn, total_scenes := ts,
        processing_timestamp := pt, session_path := joinPath scenes_dir d.name,
        has_storyboard := d.hasStoryboard }

def list_sessions (scenes_dir : String) : List SessionDir →
    Except String (List SessionSummary)
  | [] => .ok []
  | d :: rest =>
    match d.metadataFile with
    | none => list_sessions scenes_dir rest
    | some .malformed => .error "json.decoder.JSONDecodeError"
    | some (.validJson j) => do
      let s ← summarizeDir scenes_dir d j
      let tail ← list_sessions scenes_dir rest
      .ok (s :: tail)

/-! ## Serialization round-trip lemmas -/

theorem scene_fromJson_toJson (s : Scene) : Scene.fromJson s.toJson = some s := by
  rcases s with ⟨n, st, et, du, fp, fn, tr, ca, en⟩
  cases tr <;> cases ca <;> cases en <;>
    simp [Scene.toJson, Scene.fromJson, Json.getField, jsonLookup,
          Json.asNat, Json.asFloat, Json.asStr, Int.ofNat_nonneg]

theorem scenes_mapM_loop_roundtrip (l acc : List Scene) :
    List.mapM.loop Scene.fromJson (l.map Scene.toJson) acc
      = some (acc.reverse ++ l) := by
  induction l generalizing acc with
  | nil => simp [List.mapM.loop]
  | cons s rest ih =>
    simp [List.mapM.loop, scene_fromJson_toJson, ih]

theorem scenes_mapM_roundtrip (l : List Scene) :
    (l.map Scene.toJson).mapM Scene.fromJson = some l := by
  simpa using scenes_mapM_loop_roundtrip l []

theorem metadata_fromJson_toJson (m : Metadata) :
    Metadata.fromJson m.toJson = some m := by
  rcases m with ⟨vp, vn, sp, ts, scenes, pt, sb⟩
  cases sb <;>
    simp [Metadata.toJson, Metadata.fromJson, Json.getField, jsonLookup,
          Json.asNat, Json.asFloat, Json.asStr, Int.ofNat_nonneg,
          scenes_mapM_loop_roundtrip]

/-- C9: metadata persistence round-trips, and a repeated write fully
replaces the previous record.  For every metadata record (all
JSON-representable field values, including empty strings and absent
optional fields), saving it and reading the record file back yields the
record itself; writing twice to the same session path produces the same
store as writing only the second record (last write wins, never a
merge). -/
theorem c9_save_metadata_roundtrip_and_overwrite
    (md1 md2 : Metadata) (session_path : String) (fs : FSJ) :
    read_metadata (save_metadata md1 session_path fs) session_path = some md1
    ∧ save_metadata md2 session_path (save_metadata md1 session_path fs)
        = save_metadata md2 session_path fs := by
  constructor
  · simp [read_metadata, save_metadata, metadata_fromJson_toJson]
  · funext p
    by_cases h : p = joinPath session_path "metadata.json" <;>
      simp [save_metadata, h]

/-- C8: session directory identifiers embed timestamp, sanitized slug, and
random suffix; two calls with the same `video_name` in the same second
(same timestamp) but different random suffixes yield different session
paths. -/
theorem c8_session_folder_unique
    (scenes_dir timestamp video_name : String) (h1 h2 : String)
    (hne : h1 ≠ h2) :
    create_session_folder scenes_dir timestamp video_name h1
      ≠ create_session_folder scenes_dir timestamp video_name h2 := by
  intro heq
  apply hne
  have hd := congrArg String.data heq
  simp only [create_session_folder, joinPath, String.data_append,
             List.append_assoc] at hd
  exact String.ext (List.append_cancel_left (List.append_cancel_left
    (List.append_cancel_left (List.append_cancel_left
      (List.append_cancel_left (List.append_cancel_left hd))))))

theorem c8_witness :
    (("aaaaaaaa" : String) ≠ "bbbbbbbb")
    ∧ create_session_folder "scenes" "20250101_120000" "My Video" "aaaaaaaa"
        ≠ create_session_folder "scenes" "20250101_120000" "My Video" "bbbbbbbb" :=
  ⟨by decide,
   c8_session_folder_unique "scenes" "20250101_120000" "My Video"
     "aaaaaaaa" "bbbbbbbb" (by decide)⟩

/-! ## Claim C10: transcript mapper shape -/

set_option maxRecDepth 4000 in
theorem audio_clean_transcript_empty : audio_clean_transcript "" = "" := by rfl

/-- C10: `get_scene_transcripts` returns exactly one transcript per input
scene range, in order: the output has the same length as
`scene_timestamps`; the `i`-th output is the cleaned join of the segments
overlapping the `i`-th input range; a range overlapping no segment yields
the cleaned empty string (which is the empty string), not an omission. -/
theorem c10_scene_transcripts_shape
    (segments : List TransSegment) (scene_timestamps : List (ℚ × ℚ)) :
    (get_scene_transcripts segments scene_timestamps).length
        = scene_timestamps.length
    ∧ (∀ (i : Nat) (st : ℚ × ℚ), scene_timestamps[i]? = some st →
        (get_scene_transcripts segments scene_timestamps)[i]?
          = some (audio_clean_transcript (joinWithSep " "
              ((segments.filter (fun g =>
                  decide (g.seg_start ≤ st.2) && decide (st.1 ≤ g.seg_end))).map
                (fun g => g.text)))))
    ∧ (∀ (i : Nat) (st : ℚ × ℚ), scene_timestamps[i]? = some st →
        (∀ g ∈ segments, ¬(g.seg_start ≤ st.2 ∧ st.1 ≤ g.seg_end)) →
        (get_scene_transcripts segments scene_timestamps)[i]?
          = some (audio_clean_transcript ""))
    ∧ audio_clean_transcript "" = "" := by
  refine ⟨by simp [get_scene_transcripts], ?_, ?_, audio_clean_transcript_empty⟩
  · intro i st hst
    simp [get_scene_transcripts, List.getElem?_map, hst]
  · intro i st hst hnone
    have hfil : segments.filter (fun g =>
        decide (g.seg_start ≤ st.2) && decide (st.1 ≤ g.seg_end)) = [] := by
      rw [List.filter_eq_nil_iff]
      intro g hg
      simp only [Bool.and_eq_true, decide_eq_true_eq]
      exact fun hc => hnone g hg hc
    simp [get_scene_transcripts, List.getElem?_map, hst, hfil, joinWithSep]

theorem c10_witness :
    (get_scene_transcripts [{ seg_start := 5, seg_end := 6, text := "hey" }]
        [((0 : ℚ), (1 : ℚ))]).length = 1
    ∧ (get_scene_transcripts [{ seg_start := 5, seg_end := 6, text := "hey" }]
        [((0 : ℚ), (1 : ℚ))])[0]? = some (audio_clean_transcript "")
    ∧ audio_clean_transcript "" = "" := by
  obtain ⟨h1, _, h3, h4⟩ :=
    c10_scene_transcripts_shape
      [{ seg_start := 5, seg_end := 6, text := "hey" }] [((0 : ℚ), (1 : ℚ))]
  refine ⟨h1, ?_, h4⟩
  refine h3 0 ((0 : ℚ), (1 : ℚ)) rfl ?_
  intro g hg
  simp only [List.mem_singleton] at hg
  subst hg
  intro hc
  have : ¬ ((5 : ℚ) ≤ 1) := by norm_num
  exact this hc.1

/-! ## Claim C1: unreadable video -/

/-- C1 counterexample: `process_video` on an unreadable video does *not*
fail and does *not* clean up — it returns normally and leaves a session
directory containing a persisted metadata record (with `total_scenes = 0`)
behind, so a partial session remains on disk, contradicting the claim that
no session directory containing a metadata record remains. -/
theorem c1_counterexample :
    (process_video { readable := false, fps := 1, frame_count := 0, detected := [] }
        "uploads/v.mp4" "clip" "scenes" "20250101_120000" "abcd1234"
        "2025-01-01T12:00:00" (fun _ => false) (fun _ => none)).2
      "scenes/20250101_120000_clip_abcd1234/metadata.json"
      = some (Metadata.toJson
          (process_video { readable := false, fps := 1, frame_count := 0, detected := [] }
            "uploads/v.mp4" "clip" "scenes" "20250101_120000" "abcd1234"
            "2025-01-01T12:00:00" (fun _ => false) (fun _ => none)).1)
    ∧ (process_video { readable := false, fps := 1, frame_count := 0, detected := [] }
        "uploads/v.mp4" "clip" "scenes" "20250101_120000" "abcd1234"
        "2025-01-01T12:00:00" (fun _ => false) (fun _ => none)).1.total_scenes = 0 :=
  ⟨rfl, rfl⟩

/-- C1 (amended): if the video cannot be opened/decoded, `process_video`
does not raise; the decode exception is swallowed inside the detector, the
scene list is empty, and a session directory containing a metadata record
with `total_scenes = 0` remains persisted on disk. -/
theorem c1_amended (v : Video) (hv : v.readable = false)
    (video_path video_name scenes_dir timestamp randHex iso_ts : String)
    (ex : String → Bool) (fs : FSJ) :
    (process_video v video_path video_name scenes_dir timestamp randHex
        iso_ts ex fs).1.scenes = []
    ∧ (process_video v video_path video_name scenes_dir timestamp randHex
        iso_ts ex fs).1.total_scenes = 0
    ∧ (process_video v video_path video_name scenes_dir timestamp randHex
        iso_ts ex fs).2
        (joinPath (process_video v video_path video_name scenes_dir timestamp
            randHex iso_ts ex fs).1.session_path "metadata.json")
      = some (Metadata.toJson (process_video v video_path video_name scenes_dir
          timestamp randHex iso_ts ex fs).1) := by
  refine ⟨?_, ?_, ?_⟩ <;>
    simp [process_video, detect_scenes_pyscenedetect, hv, save_metadata]

theorem c1_witness :
    ((({ readable := false, fps := 1, frame_count := 0, detected := [] } : Video)).readable = false)
    ∧ (process_video { readable := false, fps := 1, frame_count := 0, detected := [] }
        "v.mp4" "n" "scenes" "TS" "RH" "ISO" (fun _ => true) (fun _ => none)).1.scenes = [] :=
  ⟨rfl,
   (c1_amended { readable := false, fps := 1, frame_count := 0, detected := [] } rfl
     "v.mp4" "n" "scenes" "TS" "RH" "ISO" (fun _ => true) (fun _ => none)).1⟩

/-! ## Claim C3: zero detected boundaries -/

/-- C3 counterexample: for a decodable video on which the boundary detector
returns zero ranges, the single synthesized whole-video scene is still
subject to the frame-existence check; when its representative frame file is
absent the scene is dropped and the session ends up with *zero* scenes, so
it is not true that every such session has at least one scene. -/
theorem c3_counterexample :
    rawSceneList { readable := true, fps := 1, frame_count := 10, detected := [] }
      = [((0 : ℚ), ((10 : Nat) : ℚ) / 1)]
    ∧ (process_video { readable := true, fps := 1, frame_count := 10, detected := [] }
        "v.mp4" "clip" "scenes" "TS" "RH" "ISO" (fun _ => false) (fun _ => none)).1.scenes
      = []
    ∧ (process_video { readable := true, fps := 1, frame_count := 10, detected := [] }
        "v.mp4" "clip" "scenes" "TS" "RH" "ISO" (fun _ => false) (fun _ => none)).1.total_scenes
      = 0 :=
  ⟨rfl, rfl, rfl⟩

/-- C3 (amended): if the detector returns zero ranges for a readable video,
segmentation synthesizes exactly one raw scene spanning
`[0, frame_count / fps]`; provided the synthesized scene's representative
frame file exists (primary naming convention), the output is exactly that
one scene, so the session has one scene. -/
theorem c3_amended (v : Video) (session_path : String) (ex : String → Bool)
    (hv : v.readable = true) (hd : v.detected = [])
    (hex : ex (joinPath session_path (primaryFrameName 0)) = true) :
    detect_scenes_pyscenedetect v session_path ex
      = [{ scene_number := 1, start_time := 0,
           end_time := (v.frame_count : ℚ) / v.fps,
           duration := (v.frame_count : ℚ) / v.fps,
           frame_path := joinPath session_path (primaryFrameName 0),
           frame_filename := primaryFrameName 0 }] := by
  simp [detect_scenes_pyscenedetect, hv, rawSceneList, hd, List.enum,
        List.enumFrom, sceneFromRaw, hex]

theorem c3_witness :
    (({ readable := true, fps := 1, frame_count := 10, detected := [] } : Video)).detected = []
    ∧ detect_scenes_pyscenedetect
        { readable := true, fps := 1, frame_count := 10, detected := [] } "s"
        (fun p => p == joinPath "s" (primaryFrameName 0))
      = [{ scene_number := 1, start_time := 0,
           end_time := (((10 : Nat) : ℚ)) / 1, duration := (((10 : Nat) : ℚ)) / 1,
           frame_path := joinPath "s" (primaryFrameName 0),
           frame_filename := primaryFrameName 0 }] :=
  ⟨rfl,
   c3_amended { readable := true, fps := 1, frame_count := 10, detected := [] } "s"
     (fun p => p == joinPath "s" (primaryFrameName 0)) rfl rfl
     (by decide)⟩

/-! ## Claim C2: scene numbering -/

/-- Whether the detection loop keeps raw scene `i` (0-based): its
representative frame exists under the primary or the alternate naming
convention. -/
def keepScene (session_path : String) (ex : String → Bool) (i : Nat) : Bool :=
  ex (joinPath session_path (primaryFrameName i))
    || ex (joinPath session_path (altFrameName i))

theorem sceneFromRaw_isSome (sp : String) (ex : String → Bool) (i : Nat)
    (se : ℚ × ℚ) :
    (sceneFromRaw sp ex i se).isSome = keepScene sp ex i := by
  by_cases h1 : ex (joinPath sp (primaryFrameName i)) = true
  · simp [sceneFromRaw, keepScene, h1]
  · by_cases h2 : ex (joinPath sp (altFrameName i)) = true
    · simp [sceneFromRaw, keepScene, h1, h2]
    · simp [sceneFromRaw, keepScene, h1, h2]

theorem sceneFromRaw_sceneNumber {sp : String} {ex : String → Bool} {i : Nat}
    {se : ℚ × ℚ} {s : Scene} (h : sceneFromRaw sp ex i se = some s) :
    s.scene_number = i + 1 := by
  by_cases h1 : ex (joinPath sp (primaryFrameName i)) = true
  · simp only [sceneFromRaw] at h
    rw [if_pos h1] at h
    rw [← Option.some.inj h]
  · by_cases h2 : ex (joinPath sp (altFrameName i)) = true
    · simp only [sceneFromRaw] at h
      rw [if_neg h1, if_pos h2] at h
      rw [← Option.some.inj h]
    · simp [sceneFromRaw, h1, h2] at h

theorem map_sceneNumber_enumFrom (sp : String) (ex : String → Bool)
    (l : List (ℚ × ℚ)) (n : Nat) :
    ((List.enumFrom n l).filterMap (fun p => sceneFromRaw sp ex p.1 p.2)).map
        (fun s => s.scene_number)
    = ((List.range' n l.length).filter (keepScene sp ex)).map
        (fun i => i + 1) := by
  induction l generalizing n with
  | nil => rfl
  | cons se rest ih =>
    rw [List.length_cons, List.range'_succ, List.enumFrom_cons,
        List.filterMap_cons, List.filter_cons]
    cases hs : sceneFromRaw sp ex n se with
    | none =>
      have hk : keepScene sp ex n = false := by
        have hi := sceneFromRaw_isSome sp ex n se
        rw [hs] at hi
        simpa using hi.symm
      simpa [hk] using ih (n + 1)
    | some s =>
      have hk : keepScene sp ex n = true := by
        have hi := sceneFromRaw_isSome sp ex n se
        rw [hs] at hi
        simpa using hi.symm
      have hn := sceneFromRaw_sceneNumber hs
      simpa [hk, hn] using ih (n + 1)

/-- C2 (amended): for a readable video, the `scene_number` values of the
output are strictly increasing (scene `i` of the raw detector list keeps
number `i + 1`); when every raw scene's frame exists under a known naming
convention — i.e. no scene is dropped — they are exactly the contiguous
sequence `1..N`.  When scenes are dropped, the survivors keep their raw
numbers, which leaves gaps rather than renumbering; no placeholder stub
remains in either case. -/
theorem c2_amended (v : Video) (session_path : String) (ex : String → Bool)
    (hv : v.readable = true) :
    ((detect_scenes_pyscenedetect v session_path ex).map
        (fun s => s.scene_number)).Pairwise (· < ·)
    ∧ ((∀ i, i < (rawSceneList v).length → keepScene session_path ex i = true) →
        (detect_scenes_pyscenedetect v session_path ex).map
            (fun s => s.scene_number)
          = List.range' 1 (rawSceneList v).length) := by
  have hmap : (detect_scenes_pyscenedetect v session_path ex).map
      (fun s => s.scene_number)
      = (((List.range' 0 (rawSceneList v).length).filter
          (keepScene session_path ex)).map (fun i => i + 1)) := by
    simp only [detect_scenes_pyscenedetect, hv, if_true, List.enum]
    exact map_sceneNumber_enumFrom session_path ex (rawSceneList v) 0
  constructor
  · rw [hmap]
    refine List.pairwise_map.mpr ?_
    exact ((List.pairwise_lt_range' _ _).filter _).imp
      (fun hab => Nat.add_lt_add_right hab 1)
  · intro hall
    rw [hmap]
    have hfe : (List.range' 0 (rawSceneList v).length).filter
        (keepScene session_path ex) = List.range' 0 (rawSceneList v).length :=
      List.filter_eq_self.mpr (fun a ha => hall a (by
        have := List.mem_range'_1.mp ha
        omega))
    rw [hfe]
    have h1 : ((List.range' 0 (rawSceneList v).length).map (fun i => i + 1))
        = (List.range' 0 (rawSceneList v).length).map (fun i => 1 + i) :=
      List.map_congr_left (fun a _ => Nat.add_comm a 1)
    rw [h1, List.map_add_range']

/-- C2 counterexample: with two raw scenes whose first frame file is
missing (only `scene_002.jpg` exists), the surviving scene list has
`scene_number` values `[2]` — not the gap-free sequence starting at 1 that
the claim asserts. -/
theorem c2_counterexample :
    (detect_scenes_pyscenedetect
        { readable := true, fps := 1, frame_count := 9,
          detected := [((0 : ℚ), (1 : ℚ)), ((1 : ℚ), (2 : ℚ))] } "s"
        (fun p => p == "s/scene_002.jpg")).map (fun s => s.scene_number)
      = [2]
    ∧ [2] ≠ List.range' 1 1 :=
  ⟨rfl, by decide⟩

theorem c2_witness :
    (({ readable := true, fps := 1, frame_count := 9,
        detected := [((0 : ℚ), (1 : ℚ)), ((1 : ℚ), (2 : ℚ))] } : Video)).readable = true
    ∧ (detect_scenes_pyscenedetect
        { readable := true, fps := 1, frame_count := 9,
          detected := [((0 : ℚ), (1 : ℚ)), ((1 : ℚ), (2 : ℚ))] } "s"
        (fun p => p == "s/scene_001.jpg" || p == "s/scene_002.jpg")).map
          (fun s => s.scene_number)
      = List.range' 1 (rawSceneList
          { readable := true, fps := 1, frame_count := 9,
            detected := [((0 : ℚ), (1 : ℚ)), ((1 : ℚ), (2 : ℚ))] }).length := by
  refine ⟨rfl, ?_⟩
  refine (c2_amended
      { readable := true, fps := 1, frame_count := 9,
        detected := [((0 : ℚ), (1 : ℚ)), ((1 : ℚ), (2 : ℚ))] } "s"
      (fun p => p == "s/scene_001.jpg" || p == "s/scene_002.jpg") rfl).2 ?_
  decide

/-! ## Claim C7: boundary detector contract -/

theorem convert_pairs_le (fps : ℚ) (hfps : 0 < fps) (total : Int) :
    ∀ l : List Int, l.Chain' (· < ·) → (∀ x ∈ l, x ≤ total - 1) →
      ∀ p ∈ convert_frames_to_timestamps fps total l, p.1 ≤ p.2 := by
  intro l
  induction l with
  | nil => intro _ _ p hp; simp [convert_frames_to_timestamps] at hp
  | cons f rest ih =>
    intro hch hle p hp
    cases rest with
    | nil =>
      simp only [convert_frames_to_timestamps, List.mem_singleton] at hp
      subst hp
      have hf : f ≤ total - 1 := hle f (List.mem_cons_self f [])
      have hq : (f : ℚ) ≤ ((total - 1 : Int) : ℚ) := by exact_mod_cast hf
      exact (div_le_div_iff_of_pos_right hfps).mpr hq
    | cons g rest2 =>
      simp only [convert_frames_to_timestamps, List.mem_cons] at hp
      rcases hp with hp | hp
      · rw [hp]
        have hfg : f < g := (List.chain'_cons.mp hch).1
        have hq : (f : ℚ) ≤ ((g - 1 : Int) : ℚ) := by
          exact_mod_cast (by omega : f ≤ g - 1)
        exact (div_le_div_iff_of_pos_right hfps).mpr hq
      · exact ih (List.chain'_cons.mp hch).2
          (fun x hx => hle x (List.mem_cons_of_mem f hx)) p hp

/-- C7 (amended): the OpenCV boundary detector returns strictly increasing
frame indices, the first of which is frame 0 (scene 1); after conversion to
time ranges every scene satisfies `start_time ≤ end_time` — but not the
claimed strict `end_time > start_time`: adjacent boundaries produce
zero-length ranges (see the counterexample). -/
theorem c7_amended (frame_count : Nat) (cut : Nat → Bool) (fps : ℚ)
    (hn : 1 ≤ frame_count) (hfps : 0 < fps) :
    (detect_scenes_opencv frame_count cut).Pairwise (· < ·)
    ∧ (detect_scenes_opencv frame_count cut).head? = some 0
    ∧ ∀ p ∈ convert_frames_to_timestamps fps (frame_count : Int)
        (detect_scenes_opencv frame_count cut), p.1 ≤ p.2 := by
  have hpw : (detect_scenes_opencv frame_count cut).Pairwise (· < ·) := by
    rw [detect_scenes_opencv]
    refine List.pairwise_cons.mpr ⟨?_, ?_⟩
    · intro b hb
      simp only [List.mem_map] at hb
      obtain ⟨i, hi, rfl⟩ := hb
      have hpos : 0 < i := by
        have hf := (List.mem_filter.mp hi).2
        simp only [Bool.and_eq_true, decide_eq_true_eq] at hf
        exact hf.1
      show (0 : Int) < (i : Int)
      exact_mod_cast hpos
    · refine List.pairwise_map.mpr ?_
      exact ((List.pairwise_lt_range _).filter _).imp
        (fun hab => show ((_ : Nat) : Int) < ((_ : Nat) : Int) by exact_mod_cast hab)
  refine ⟨hpw, rfl, ?_⟩
  refine convert_pairs_le fps hfps (frame_count : Int)
    (detect_scenes_opencv frame_count cut) hpw.chain' ?_
  intro x hx
  simp only [detect_scenes_opencv, List.mem_cons, List.mem_map] at hx
  have h1 : (1 : Int) ≤ (frame_count : Int) := by exact_mod_cast hn
  rcases hx with rfl | ⟨i, hi, rfl⟩
  · omega
  · have hlt : i < frame_count := List.mem_range.mp (List.mem_filter.mp hi).1
    have h2 : (i : Int) < (frame_count : Int) := by exact_mod_cast hlt
    show (i : Int) ≤ (frame_count : Int) - 1
    omega

/-- C7 counterexample: with two frames whose histograms differ (a cut at
frame 1), the boundaries are `[0, 1]` and conversion yields two zero-length
scenes `(0,0)` and `(1,1)` — `end_time > start_time` fails. -/
theorem c7_counterexample :
    convert_frames_to_timestamps 1 2 (detect_scenes_opencv 2 (fun i => i == 1))
      = [((0 : ℚ), (0 : ℚ)), ((1 : ℚ), (1 : ℚ))]
    ∧ ¬ ((0 : ℚ) < (0 : ℚ)) := by
  constructor
  · have hdet : detect_scenes_opencv 2 (fun i => i == 1) = [0, 1] := by rfl
    rw [hdet]
    simp only [convert_frames_to_timestamps]
    norm_num
  · exact lt_irrefl 0

theorem c7_witness :
    (1 ≤ 2 ∧ (0 : ℚ) < 1)
    ∧ (detect_scenes_opencv 2 (fun _ => false)).head? = some 0
    ∧ (detect_scenes_opencv 2 (fun _ => false)).Pairwise (· < ·) := by
  have h := c7_amended 2 (fun _ => false) 1 (by decide) (by norm_num)
  exact ⟨⟨by decide, by norm_num⟩, h.2.1, h.1⟩

/-! ## Claim C6: session listing -/

/-- The summary a directory contributes when its record file is present and
parses to a JSON object (the only case the endpoint handles without
raising). -/
def summarizeValid (scenes_dir : String) (d : SessionDir) : Option SessionSummary :=
  match d.metadataFile with
  | some (.validJson (.obj fields)) =>
    some { session_id := d.name,
           video_name := (jsonLookup "video_name" fields).getD (.str "Unknown"),
           total_scenes := (jsonLookup "total_scenes" fields).getD (.intNum 0),
           processing_timestamp :=
             (jsonLookup "processing_timestamp" fields).getD (.str ""),
           session_path := joinPath scenes_dir d.name,
           has_storyboard := d.hasStoryboard }
  | _ => none

/-- C6 counterexample: one directory whose record file is malformed makes
the whole listing call raise (the `json.load` exception propagates to the
endpoint's catch-all, which re-raises as HTTP 500) — the directory is not
"simply excluded". -/
theorem c6_counterexample :
    list_sessions "scenes"
        [{ name := "bad", metadataFile := some .malformed, hasStoryboard := false }]
      = .error "json.decoder.JSONDecodeError" := rfl

/-- C6 (amended): listing never raises as long as every *present* record
file parses to a JSON object: directories with a missing record file are
simply excluded, and every directory with a valid (object) record
contributes, in scan order, a summary exposing its name, scene count,
timestamp, and storyboard presence (with the `get` defaults).  A malformed
record file, however, makes the whole listing call fail instead of being
skipped. -/
theorem c6_amended (scenes_dir : String) (dirs : List SessionDir)
    (h : ∀ d ∈ dirs, ∀ c, d.metadataFile = some c →
        ∃ fields, c = .validJson (.obj fields)) :
    list_sessions scenes_dir dirs
      = .ok (dirs.filterMap (summarizeValid scenes_dir)) := by
  induction dirs with
  | nil => rfl
  | cons d rest ih =>
    have htail := ih (fun d2 hd2 => h d2 (List.mem_cons_of_mem d hd2))
    cases hmf : d.metadataFile with
    | none =>
      rw [List.filterMap_cons]
      simp only [summarizeValid, hmf]
      simpa [list_sessions, hmf] using htail
    | some c =>
      obtain ⟨fields, rfl⟩ := h d (List.mem_cons_self d rest) c hmf
      rw [List.filterMap_cons]
      simp only [summarizeValid, hmf]
      simp only [list_sessions, hmf, summarizeDir, dictGet, htail]
      rfl

theorem c6_witness :
    list_sessions "scenes"
        [{ name := "a",
           metadataFile := some (.validJson (.obj [("video_name", Json.str "clip")])),
           hasStoryboard := true },
         { name := "b", metadataFile := none, hasStoryboard := false }]
      = .ok ([{ name := "a",
                metadataFile := some (.validJson (.obj [("video_name", Json.str "clip")])),
                hasStoryboard := true },
              { name := "b", metadataFile := none, hasStoryboard := false }].filterMap
          (summarizeValid "scenes")) := by
  refine c6_amended "scenes" _ ?_
  intro d hd c hc
  simp only [List.mem_cons, List.not_mem_nil, or_false] at hd
  rcases hd with rfl | rfl
  · simp only at hc
    exact ⟨[("video_name", Json.str "clip")], (Option.some.inj hc).symm⟩
  · simp at hc

/-! ## Claims C4 and C5: the enrichment orchestrator -/

theorem enrich_scenes_length (cap : String → Except String String)
    (scenes : List Scene) (ts : List String) :
    (((scenes.zip ts).map (attachTranscriptAndCaption cap))
        ++ scenes.drop ts.length).length = scenes.length := by
  simp only [List.length_append, List.length_map, List.length_zip,
             List.length_drop]
  omega

/-- The in-repo caption enhancer returns one scene per input scene. -/
theorem enhance_scene_captions_length (l : List Scene) :
    (enhance_scene_captions l).length = l.length := by
  simp [enhance_scene_captions]

/-- C4: `total_scenes` equals `len(scenes)` in every persisted record —
in the record written by `process_video` right after segmentation (first
conjunct, by construction), and in the record re-written by the
orchestrator after enrichment (second conjunct), provided the enhancement
stage is length-preserving, as the in-repo `enhance_scene_captions` is
(`enhance_scene_captions_length`); the third conjunct states that the
re-written store maps the session's record file to exactly the serialized
final record. -/
theorem c4_total_scenes_invariant (st : Stages) (v : Video)
    (temp_video_path video_name scenes_dir timestamp randHex iso_ts : String)
    (ex : String → Bool) (fs : FSJ)
    (hLen : ∀ s es, st.enhance s = .ok es → es.length = s.length) :
    ((process_video v temp_video_path video_name scenes_dir timestamp randHex
        iso_ts ex fs).1.total_scenes
      = (process_video v temp_video_path video_name scenes_dir timestamp
          randHex iso_ts ex fs).1.scenes.length)
    ∧ (((process_video_upload st v temp_video_path video_name scenes_dir
          timestamp randHex iso_ts ex fs).toOption.map
          (fun p => decide (p.1.total_scenes = p.1.scenes.length))).getD true
        = true)
    ∧ (∀ md2 fs2, process_video_upload st v temp_video_path video_name
          scenes_dir timestamp randHex iso_ts ex fs = .ok (md2, fs2) →
        fs2 (joinPath md2.session_path "metadata.json")
          = some (Metadata.toJson md2)) := by
  refine ⟨rfl, ?_⟩
  have ha : (process_video v temp_video_path video_name scenes_dir timestamp
          randHex iso_ts ex fs).1.total_scenes = (process_video v temp_video_path video_name scenes_dir timestamp
          randHex iso_ts ex fs).1.scenes.length := rfl
  simp only [process_video_upload]
  cases htr : st.transcribe
      (joinPath (process_video v temp_video_path video_name scenes_dir timestamp
          randHex iso_ts ex fs).1.session_path (basenameStr temp_video_path))
      ((process_video v temp_video_path video_name scenes_dir timestamp
          randHex iso_ts ex fs).1.scenes.map (fun s => (s.start_time, s.end_time))) with
  | error e =>
    constructor
    · rfl
    · intro md2 fs2 hr
      exact absurd hr (by simp)
  | ok ts2 =>
    dsimp only
    cases hen : st.enhance ((((process_video v temp_video_path video_name scenes_dir timestamp
          randHex iso_ts ex fs).1.scenes.zip ts2).map
            (attachTranscriptAndCaption st.captionImage))
          ++ (process_video v temp_video_path video_name scenes_dir timestamp
          randHex iso_ts ex fs).1.scenes.drop ts2.length) with
    | error e2 =>
      dsimp only
      cases hrd : st.render ((((process_video v temp_video_path video_name scenes_dir timestamp
          randHex iso_ts ex fs).1.scenes.zip ts2).map
            (attachTranscriptAndCaption st.captionImage))
          ++ (process_video v temp_video_path video_name scenes_dir timestamp
          randHex iso_ts ex fs).1.scenes.drop ts2.length)
          (joinPath (process_video v temp_video_path video_name scenes_dir timestamp
          randHex iso_ts ex fs).1.session_path "storyboard.jpg") with
      | error e3 =>
        dsimp only
        constructor
        · simp only [Except.toOption, Option.map_some', Option.getD_some,
                     decide_eq_true_eq]
          rw [ha]
          exact (enrich_scenes_length st.captionImage _ ts2).symm
        · intro md2 fs2 hr
          simp only [Except.ok.injEq, Prod.mk.injEq] at hr
          rw [← hr.1, ← hr.2]
          simp [save_metadata]
      | ok p3 =>
        dsimp only
        constructor
        · simp only [Except.toOption, Option.map_some', Option.getD_some,
                     decide_eq_true_eq]
          rw [ha]
          exact (enrich_scenes_length st.captionImage _ ts2).symm
        · intro md2 fs2 hr
          simp only [Except.ok.injEq, Prod.mk.injEq] at hr
          rw [← hr.1, ← hr.2]
          simp [save_metadata]
    | ok es =>
      dsimp only
      have hlen2 := hLen _ es hen
      cases hrd : st.render es
          (joinPath (process_video v temp_video_path video_name scenes_dir timestamp
          randHex iso_ts ex fs).1.session_path "storyboard.jpg") with
      | error e3 =>
        dsimp only
        constructor
        · simp only [Except.toOption, Option.map_some', Option.getD_some,
                     decide_eq_true_eq]
          rw [ha, hlen2]
          exact (enrich_scenes_length st.captionImage _ ts2).symm
        · intro md2 fs2 hr
          simp only [Except.ok.injEq, Prod.mk.injEq] at hr
          rw [← hr.1, ← hr.2]
          simp [save_metadata]
      | ok p3 =>
        dsimp only
        constructor
        · simp only [Except.toOption, Option.map_some', Option.getD_some,
                     decide_eq_true_eq]
          rw [ha, hlen2]
          exact (enrich_scenes_length st.captionImage _ ts2).symm
        · intro md2 fs2 hr
          simp only [Except.ok.injEq, Prod.mk.injEq] at hr
          rw [← hr.1, ← hr.2]
          simp [save_metadata]

theorem c4_witness :
    ((process_video { readable := true, fps := 1, frame_count := 4, detected := [] }
        "v.mp4" "clip" "scenes" "TS" "RH" "ISO" (fun _ => false) (fun _ => none)).1.total_scenes
      = (process_video { readable := true, fps := 1, frame_count := 4, detected := [] }
          "v.mp4" "clip" "scenes" "TS" "RH" "ISO" (fun _ => false) (fun _ => none)).1.scenes.length)
    ∧ ((process_video_upload
          { transcribe := fun _ ts => .ok (ts.map (fun _ => "")),
            captionImage := fun _ => .ok "a frame",
            enhance := fun s => .ok (enhance_scene_captions s),
            render := fun _ _ => .ok "sb.jpg" }
          { readable := true, fps := 1, frame_count := 4, detected := [] }
          "v.mp4" "clip" "scenes" "TS" "RH" "ISO" (fun _ => false)
          (fun _ => none)).toOption.map
        (fun p => decide (p.1.total_scenes = p.1.scenes.length))).getD true = true := by
  have h := c4_total_scenes_invariant
    { transcribe := fun _ ts => .ok (ts.map (fun _ => "")),
      captionImage := fun _ => .ok "a frame",
      enhance := fun s => .ok (enhance_scene_captions s),
      render := fun _ _ => .ok "sb.jpg" }
    { readable := true, fps := 1, frame_count := 4, detected := [] }
    "v.mp4" "clip" "scenes" "TS" "RH" "ISO" (fun _ => false) (fun _ => none)
    (by
      intro s es hok
      rw [← Except.ok.inj hok]
      exact enhance_scene_captions_length s)
  exact ⟨h.1, h.2.1⟩

/-- C5 counterexample: a transcript-stage failure aborts the whole run —
the orchestrator returns an error instead of completing with the record
produced so far, because the `get_scene_transcripts` call (main.py line 95)
is not wrapped in a per-stage `try`/`except`. -/
theorem c5_counterexample :
    process_video_upload
        { transcribe := fun _ _ => .error "whisper crashed",
          captionImage := fun _ => .ok "cap",
          enhance := fun s => .ok s,
          render := fun _ _ => .ok "sb.jpg" }
        { readable := false, fps := 1, frame_count := 0, detected := [] }
        "uploads/v.mp4" "clip" "scenes" "TS" "RH" "ISO"
        (fun _ => false) (fun _ => none)
      = .error "whisper crashed" := rfl

/-- C5 (amended): caption, enhancement, and storyboard failures are each
recovered locally — a failed frame caption yields the visible
`[Captioning failed: …]` placeholder on that scene (third conjunct), and
failed enhancement/render stages are skipped — so the pipeline completes
whenever the transcript stage succeeds, for *any* behaviour of the other
three stages (second conjunct); but a transcript-stage failure aborts the
whole run with that error (first conjunct). -/
theorem c5_amended (st : Stages) (v : Video)
    (temp_video_path video_name scenes_dir timestamp randHex iso_ts : String)
    (ex : String → Bool) (fs : FSJ) :
    (∀ e, st.transcribe
        (joinPath (process_video v temp_video_path video_name scenes_dir
            timestamp randHex iso_ts ex fs).1.session_path
          (basenameStr temp_video_path))
        ((process_video v temp_video_path video_name scenes_dir timestamp
            randHex iso_ts ex fs).1.scenes.map
          (fun s => (s.start_time, s.end_time))) = .error e →
      process_video_upload st v temp_video_path video_name scenes_dir
        timestamp randHex iso_ts ex fs = .error e)
    ∧ (∀ l, st.transcribe
        (joinPath (process_video v temp_video_path video_name scenes_dir
            timestamp randHex iso_ts ex fs).1.session_path
          (basenameStr temp_video_path))
        ((process_video v temp_video_path video_name scenes_dir timestamp
            randHex iso_ts ex fs).1.scenes.map
          (fun s => (s.start_time, s.end_time))) = .ok l →
      (process_video_upload st v temp_video_path video_name scenes_dir
        timestamp randHex iso_ts ex fs).toOption.isSome = true)
    ∧ (∀ (cap : String → Except String String) (s : Scene) (t e : String),
        cap s.frame_path = .error e →
        (attachTranscriptAndCaption cap (s, t)).caption
            = some ("[Captioning failed: " ++ e ++ "]")
        ∧ (attachTranscriptAndCaption cap (s, t)).transcript = some t) := by
  refine ⟨?_, ?_, ?_⟩
  · intro e he
    simp only [process_video_upload]
    rw [he]
  · intro l hl
    simp only [process_video_upload]
    rw [hl]
    rfl
  · intro cap s t e hc
    constructor <;> simp [attachTranscriptAndCaption, hc]

theorem c5_witness :
    ((process_video_upload
        { transcribe := fun _ _ => .ok [],
          captionImage := fun _ => .error "blip down",
          enhance := fun _ => .error "llm down",
          render := fun _ _ => .error "render fail" }
        { readable := true, fps := 1, frame_count := 4, detected := [] }
        "v.mp4" "clip" "scenes" "TS" "RH" "ISO" (fun _ => false)
        (fun _ => none)).toOption.isSome = true)
    ∧ (attachTranscriptAndCaption (fun _ => .error "blip down")
        ({ scene_number := 1, start_time := 0, end_time := 1, duration := 1,
           frame_path := "f.jpg", frame_filename := "f.jpg" }, "hi")).caption
      = some ("[Captioning failed: " ++ "blip down" ++ "]") := by
  obtain ⟨h1, h2, h3⟩ := c5_amended
    { transcribe := fun _ _ => .ok [],
      captionImage := fun _ => .error "blip down",
      enhance := fun _ => .error "llm down",
      render := fun _ _ => .error "render fail" }
    { readable := true, fps := 1, frame_count := 4, detected := [] }
    "v.mp4" "clip" "scenes" "TS" "RH" "ISO" (fun _ => false) (fun _ => none)
  exact ⟨h2 [] rfl,
    (h3 (fun _ => .error "blip down")
      { scene_number := 1, start_time := 0, end_time := 1, duration := 1,
        frame_path := "f.jpg", frame_filename := "f.jpg" } "hi" "blip down" rfl).1⟩
